import Mathlib

/-!
Verification of the broadcast message construction core of
`socket-io-azure-service-bus-emitter`.

The repository contains two protocol dialects of the same builder:
* `src/lib/index.ts` — the subject-routed dialect: messages travel with a
  hierarchical `subject` string (`<key>#<nsp>#[room#]` for broadcasts,
  `<key>-request#<nsp>#` for requests); request-type terminals serialize
  their body with `JSON.stringify`.
* `src/unnamed/part_003` — the property-routed dialect: no subject; the
  namespace travels in `applicationProperties` and every terminal encodes a
  `ClusterMessage` record with the configured parser.

Shared parts (builder state, refinement calls, reserved events, emitter
construction) are identical in both files and are embedded once below;
the dialect-specific terminal calls live in the `SubjectRouted` and
`PropertyRouted` namespaces.
-/

/-- A JavaScript value, as far as the emitter's message records need:
strings, integer numbers, booleans, arrays, objects with ordered keys,
`undefined`, and opaque function values (only their `typeof` matters,
for the acknowledgement check in `serverSideEmit`). -/
inductive JValue where
  | str : String → JValue
  | num : Int → JValue
  | bool : Bool → JValue
  | arr : List JValue → JValue
  | obj : List (String × JValue) → JValue
  | undef : JValue
  | fn : JValue

/-- `typeof v === "function"`. -/
def JValue.isFn : JValue → Bool
  | .fn => true
  | _ => false

/-- `typeof v === "undefined"`. -/
def JValue.isUndef : JValue → Bool
  | .undef => true
  | _ => false

/-- Property lookup on an object value (first binding wins, as in a JS
object literal where our records never repeat keys). -/
def JValue.lookup : JValue → String → Option JValue
  | .obj kvs, k => (kvs.find? (fun kv => kv.1 = k)).map (fun kv => kv.2)
  | _, _ => none

/-- Index access on an array value (`v[i]`). -/
def JValue.item : JValue → Nat → Option JValue
  | .arr xs, i => xs.get? i
  | _, _ => none

/-- Escape for JSON string literals (quote and backslash; the records built
by this library never contain control characters). -/
def jsonEscape (s : String) : String :=
  s.data.foldl
    (fun acc c =>
      if c = '"' then acc ++ "\\\""
      else if c = '\\' then acc ++ "\\\\"
      else acc.push c)
    ""

mutual

/-- Model of `JSON.stringify` on the record values this library builds.
Arrays render `undefined`/function elements as `null` (as JS does); object
properties with `undefined`/function values are omitted (as JS does). -/
def jsonStringify : JValue → String
  | .str s => "\"" ++ jsonEscape s ++ "\""
  | .num n => toString n
  | .bool b => if b then "true" else "false"
  | .undef => "null"
  | .fn => "null"
  | .arr xs => "[" ++ jsonItems xs ++ "]"
  | .obj kvs => "\x7b" ++ jsonProps kvs ++ "\x7d"

/-- Comma-separated rendering of array elements. -/
def jsonItems : List JValue → String
  | [] => ""
  | [x] => jsonStringify x
  | x :: y :: xs => jsonStringify x ++ "," ++ jsonItems (y :: xs)

/-- Comma-separated rendering of object properties, omitting
`undefined`/function-valued ones as `JSON.stringify` does. -/
def jsonProps : List (String × JValue) → String
  | [] => ""
  | (k, v) :: kvs =>
      if v.isUndef || v.isFn then jsonProps kvs
      else
        let rest := jsonProps kvs
        "\"" ++ jsonEscape k ++ "\":" ++ jsonStringify v ++
          (if rest = "" then "" else "," ++ rest)

end

/-!
### JS `Set<string>` model

A JS `Set` iterates in insertion order and ignores re-insertion of an
element it already holds, so we model it as a duplicate-free list in
insertion order.  `setAdd` is `Set.prototype.add`.
-/

/-- `s.add(r)`: appends `r` unless already present (insertion order kept). -/
def setAdd (s : List String) (r : String) : List String :=
  if r ∈ s then s else s ++ [r]

/-- `rs.forEach((r) => s.add(r))`, as in the `to`/`except` refinements. -/
def setAddAll (s : List String) (rs : List String) : List String :=
  rs.foldl setAdd s

theorem mem_setAdd {s : List String} {r x : String} :
    x ∈ setAdd s r ↔ x ∈ s ∨ x = r := by
  unfold setAdd
  split
  · rename_i hr
    constructor
    · exact Or.inl
    · rintro (h | rfl) <;> assumption
  · simp [List.mem_append]

theorem mem_setAddAll {rs s : List String} {x : String} :
    x ∈ setAddAll s rs ↔ x ∈ s ∨ x ∈ rs := by
  induction rs generalizing s with
  | nil => simp [setAddAll]
  | cons r rs ih =>
    show x ∈ setAddAll (setAdd s r) rs ↔ _
    rw [ih, mem_setAdd]
    simp [List.mem_cons, or_assoc]

theorem setAddAll_append (s : List String) (l₁ l₂ : List String) :
    setAddAll s (l₁ ++ l₂) = setAddAll (setAddAll s l₁) l₂ :=
  List.foldl_append ..

/-- The `room: string | string[]` argument accepted by the refinement and
`socketsJoin`/`socketsLeave` calls; `toList` is the
`Array.isArray(room) ? room : [room]` normalization the source applies. -/
inductive RoomArg where
  | one : String → RoomArg
  | many : List String → RoomArg

def RoomArg.toList : RoomArg → List String
  | .one r => [r]
  | .many rs => rs

/-- The `BroadcastFlags` record; `none` models an absent (`undefined`)
property, distinct from an explicit `false`. -/
structure BroadcastFlags where
  volatile : Option Bool := none
  compress : Option Bool := none
deriving DecidableEq

/-- Rendering of the flags object inside an encoded record: only the
properties that were actually set appear. -/
def BroadcastFlags.toJ (f : BroadcastFlags) : JValue :=
  .obj ((f.volatile.toList.map (fun b => ("volatile", JValue.bool b))) ++
        (f.compress.toList.map (fun b => ("compress", JValue.bool b))))

/-- One message handed to `sbSender.sendMessages` — body plus the
addressing metadata the two dialects use (`subject` for the
subject-routed dialect, `applicationProperties` for the property-routed
one). -/
structure SbMessage where
  body : String
  contentType : String
  subject : Option String
  applicationProperties : List (String × String)
deriving DecidableEq

/-- The synchronous validation errors of the core (spec §7): `emit` on a
reserved event name, and `serverSideEmit` with an acknowledgement
callback. -/
inductive EmitError where
  | invalidEvent : String → EmitError
  | unsupportedFeature : EmitError
deriving DecidableEq

/-- `const UID = "emitter"` — the fixed origin tag. -/
def UID : String := "emitter"

/-- `RESERVED_EVENTS` (identical in both dialect files). -/
def RESERVED_EVENTS : List String :=
  ["connect", "connect_error", "disconnect", "disconnecting",
   "newListener", "removeListener"]

/-- Stand-in for the external MessagePack encoder (`notepack.io` /
`@msgpack/msgpack`) that is the default parser.  Its byte-level output is
external-library behavior no claim depends on; only the fact that it is a
fixed encode function matters. -/
def msgpackEncode : JValue → String :=
  fun v => "msgpack:" ++ jsonStringify v

/-- `BroadcastOptions` (identical in both dialect files). -/
structure BroadcastOptions where
  nsp : String
  broadcastChannel : String
  requestChannel : String
  parser : JValue → String

/-- The `BroadcastOperator` state: constructor defaults are empty sets and
empty flags (identical in both dialect files). -/
structure BroadcastOperator where
  broadcastOptions : BroadcastOptions
  rooms : List String := []
  exceptRooms : List String := []
  flags : BroadcastFlags := {}

/-- `to(room)`: copies the rooms set, unions in the argument, returns a new
operator sharing `exceptRooms` and `flags`. -/
def BroadcastOperator.to (b : BroadcastOperator) (room : RoomArg) : BroadcastOperator :=
  { b with rooms := setAddAll b.rooms room.toList }

/-- `in(room)`: `return this.to(room)`. -/
def BroadcastOperator.in' (b : BroadcastOperator) (room : RoomArg) : BroadcastOperator :=
  b.to room

/-- `except(room)`: copies the except set, unions in the argument. -/
def BroadcastOperator.except (b : BroadcastOperator) (room : RoomArg) : BroadcastOperator :=
  { b with exceptRooms := setAddAll b.exceptRooms room.toList }

/-- `compress(compress)`: `Object.assign(\x7b\x7d, this.flags, \x7b compress \x7d)`. -/
def BroadcastOperator.compress (b : BroadcastOperator) (c : Bool) : BroadcastOperator :=
  { b with flags := { b.flags with compress := some c } }

/-- `volatile`: `Object.assign(\x7b\x7d, this.flags, \x7b volatile: true \x7d)`. -/
def BroadcastOperator.volatile (b : BroadcastOperator) : BroadcastOperator :=
  { b with flags := { b.flags with volatile := some true } }

/-- The `Emitter` root: `opts` resolved against the defaults
(`key: "socket.io"`, `parser: msgpack encode`), the bound namespace, and
the derived `BroadcastOptions` (identical in both dialect files). -/
structure Emitter where
  key : String
  parser : JValue → String
  nsp : String
  broadcastOptions : BroadcastOptions

/-- The `Emitter` constructor: `Object.assign` of the defaults with the
caller's options, then the channel strings
`key + "#" + nsp + "#"` and `key + "-request#" + nsp + "#"`.
The `nsp` argument (default `"/"`) is stored verbatim. -/
def Emitter.make (optsKey : Option String) (optsParser : Option (JValue → String))
    (nsp : String) : Emitter :=
  let key := optsKey.getD "socket.io"
  let p := optsParser.getD msgpackEncode
  { key := key
    parser := p
    nsp := nsp
    broadcastOptions :=
      { nsp := nsp
        broadcastChannel := key ++ "#" ++ nsp ++ "#"
        requestChannel := key ++ "-request#" ++ nsp ++ "#"
        parser := p } }

/-- `of(nsp)`: a new emitter with the same (already resolved) options and
the namespace `(nsp[0] !== "/" ? "/" : "") + nsp`. -/
def Emitter.of (e : Emitter) (nsp : String) : Emitter :=
  Emitter.make (some e.key) (some e.parser)
    ((if nsp.data.head? = some '/' then "" else "/") ++ nsp)

/-- `new BroadcastOperator(this.sbSender, this.broadcastOptions)` — the
fresh operator every emitter-level convenience method builds. -/
def Emitter.toOperator (e : Emitter) : BroadcastOperator :=
  { broadcastOptions := e.broadcastOptions }

/-- `typeof args[args.length - 1] === "function"` — true iff the argument
list is non-empty and its final element is a function value (identical
acknowledgement check in both dialect files). -/
def lastIsFn (args : List JValue) : Bool :=
  match args.getLast? with
  | some v => v.isFn
  | none => false

namespace SubjectRouted

/-!
Terminal operations of `src/lib/index.ts` (the subject-routed dialect).
`emit` encodes `[UID, packet, opts]` with the configured parser and
publishes it on the broadcast channel (appending the room when exactly one
room is targeted); the request-type terminals `JSON.stringify` a request
record onto the request channel.  Each terminal performs exactly one
`sendMessage` call, modelled as the returned singleton list.
-/

/-- The numeric values of the `RequestType` enum declared in the source:
`SOCKETS = 0, ALL_ROOMS, REMOTE_JOIN, REMOTE_LEAVE, REMOTE_DISCONNECT,
REMOTE_FETCH, SERVER_SIDE_EMIT`. -/
def REMOTE_JOIN : Int := 2

def REMOTE_LEAVE : Int := 3

def REMOTE_DISCONNECT : Int := 4

def SERVER_SIDE_EMIT : Int := 6

/-- `sendMessage(channel, body)`: one Service Bus message with the channel
as its `subject`. -/
def sendMessage (channel : String) (body : String) : SbMessage :=
  { body := body
    contentType := "application/octet-stream"
    subject := some channel
    applicationProperties := [] }

/-- The record `[UID, packet, opts]` that `emit` hands to
`parser.encode`: `packet = \x7btype: PacketType.EVENT (= 2), data: [ev,
...args], nsp\x7d`, `opts = \x7brooms, flags, except\x7d` spread from the
operator's sets. -/
def emitRecord (b : BroadcastOperator) (ev : String) (args : List JValue) : JValue :=
  .arr
    [ .str UID,
      .obj [("type", .num 2),
            ("data", .arr (.str ev :: args)),
            ("nsp", .str b.broadcastOptions.nsp)],
      .obj [("rooms", .arr (b.rooms.map .str)),
            ("flags", b.flags.toJ),
            ("except", .arr (b.exceptRooms.map .str))] ]

/-- The publish channel: the broadcast channel, with the single room and a
trailing `#` appended iff the rooms set has exactly one element
(`if (this.rooms && this.rooms.size === 1)`). -/
def emitChannel (b : BroadcastOperator) : String :=
  if b.rooms.length = 1 then
    b.broadcastOptions.broadcastChannel ++ b.rooms.headD "" ++ "#"
  else
    b.broadcastOptions.broadcastChannel

/-- `BroadcastOperator#emit`: throws on a reserved event name before any
encode or send; otherwise encodes the record and performs one send. -/
def BroadcastOperator.emit (b : BroadcastOperator) (ev : String) (args : List JValue) :
    Except EmitError (List SbMessage) :=
  if ev ∈ RESERVED_EVENTS then
    .error (.invalidEvent ev)
  else
    .ok [sendMessage (emitChannel b) (b.broadcastOptions.parser (emitRecord b ev args))]

/-- The request record `JSON.stringify`-ed by `socketsJoin`:
`\x7btype: REMOTE_JOIN, opts: \x7brooms, except\x7d, rooms\x7d` — note the
absence of both `flags` and `uid`. -/
def socketsJoinRequest (b : BroadcastOperator) (rooms : RoomArg) : JValue :=
  .obj [("type", .num REMOTE_JOIN),
        ("opts", .obj [("rooms", .arr (b.rooms.map .str)),
                       ("except", .arr (b.exceptRooms.map .str))]),
        ("rooms", .arr (rooms.toList.map .str))]

/-- `BroadcastOperator#socketsJoin`: one JSON message on the request
channel. -/
def BroadcastOperator.socketsJoin (b : BroadcastOperator) (rooms : RoomArg) :
    List SbMessage :=
  [sendMessage b.broadcastOptions.requestChannel
    (jsonStringify (socketsJoinRequest b rooms))]

/-- The request record of `socketsLeave` (symmetric to `socketsJoin`). -/
def socketsLeaveRequest (b : BroadcastOperator) (rooms : RoomArg) : JValue :=
  .obj [("type", .num REMOTE_LEAVE),
        ("opts", .obj [("rooms", .arr (b.rooms.map .str)),
                       ("except", .arr (b.exceptRooms.map .str))]),
        ("rooms", .arr (rooms.toList.map .str))]

/-- `BroadcastOperator#socketsLeave`. -/
def BroadcastOperator.socketsLeave (b : BroadcastOperator) (rooms : RoomArg) :
    List SbMessage :=
  [sendMessage b.broadcastOptions.requestChannel
    (jsonStringify (socketsLeaveRequest b rooms))]

/-- The request record of `disconnectSockets`. -/
def disconnectSocketsRequest (b : BroadcastOperator) (close : Bool) : JValue :=
  .obj [("type", .num REMOTE_DISCONNECT),
        ("opts", .obj [("rooms", .arr (b.rooms.map .str)),
                       ("except", .arr (b.exceptRooms.map .str))]),
        ("close", .bool close)]

/-- `BroadcastOperator#disconnectSockets`. -/
def BroadcastOperator.disconnectSockets (b : BroadcastOperator) (close : Bool) :
    List SbMessage :=
  [sendMessage b.broadcastOptions.requestChannel
    (jsonStringify (disconnectSocketsRequest b close))]

/-- The request record of `serverSideEmit`:
`\x7buid: UID, type: SERVER_SIDE_EMIT, data: args\x7d`. -/
def serverSideEmitRequest (args : List JValue) : JValue :=
  .obj [("uid", .str UID),
        ("type", .num SERVER_SIDE_EMIT),
        ("data", .arr args)]

/-- `Emitter#serverSideEmit`: throws when the final argument is a
callback; otherwise one JSON message on the request channel. -/
def Emitter.serverSideEmit (e : Emitter) (args : List JValue) :
    Except EmitError (List SbMessage) :=
  if lastIsFn args then
    .error .unsupportedFeature
  else
    .ok [sendMessage e.broadcastOptions.requestChannel
      (jsonStringify (serverSideEmitRequest args))]

end SubjectRouted

namespace PropertyRouted

/-!
Terminal operations of `src/unnamed/part_003` (the property-routed
dialect).  Every terminal builds a `ClusterMessage` record, encodes it
with the configured parser, and sends it with the namespace (and, for the
emitter-level `serverSideEmit`, the origin tag) in
`applicationProperties`; no subject is set.
-/

/-- The message kinds used from the external `socket.io-adapter`
`MessageType` enum. -/
inductive MessageType where
  | BROADCAST
  | SOCKETS_JOIN
  | SOCKETS_LEAVE
  | DISCONNECT_SOCKETS
  | SERVER_SIDE_EMIT
deriving DecidableEq

/-- Numeric values of the used `MessageType` constructors, as declared in
the external `socket.io-adapter` package (`INITIAL_HEARTBEAT = 1`,
counting up). -/
def MessageType.toInt : MessageType → Int
  | .BROADCAST => 3
  | .SOCKETS_JOIN => 4
  | .SOCKETS_LEAVE => 5
  | .DISCONNECT_SOCKETS => 6
  | .SERVER_SIDE_EMIT => 9

/-- The `ClusterMessage` record shape from `socket.io-adapter`. -/
structure ClusterMessage where
  uid : String
  type : MessageType
  data : JValue
  nsp : String

/-- The record value handed to `parser.encode`. -/
def ClusterMessage.toJ (m : ClusterMessage) : JValue :=
  .obj [("uid", .str m.uid),
        ("type", .num m.type.toInt),
        ("data", m.data),
        ("nsp", .str m.nsp)]

/-- `BroadcastOperator#sendMessage`: no subject; the namespace travels in
`applicationProperties`. -/
def sendMessage (nsp : String) (body : String) : SbMessage :=
  { body := body
    contentType := "application/octet-stream"
    subject := none
    applicationProperties := [("nsp", nsp)] }

/-- The `ClusterMessage` built by `emit`: `BROADCAST` with
`data.packet = \x7btype: PacketType.EVENT (= 2), data: [ev, ...args],
nsp\x7d` and `data.opts = \x7brooms, flags, except\x7d`. -/
def emitClusterMessage (b : BroadcastOperator) (ev : String) (args : List JValue) :
    ClusterMessage :=
  { uid := UID
    type := .BROADCAST
    data := .obj
      [("packet", .obj [("type", .num 2),
                        ("data", .arr (.str ev :: args)),
                        ("nsp", .str b.broadcastOptions.nsp)]),
       ("opts", .obj [("rooms", .arr (b.rooms.map .str)),
                      ("flags", b.flags.toJ),
                      ("except", .arr (b.exceptRooms.map .str))])]
    nsp := b.broadcastOptions.nsp }

/-- `BroadcastOperator#emit`: throws on a reserved event name before any
encode or send; otherwise encodes the cluster message and performs one
send. -/
def BroadcastOperator.emit (b : BroadcastOperator) (ev : String) (args : List JValue) :
    Except EmitError (List SbMessage) :=
  if ev ∈ RESERVED_EVENTS then
    .error (.invalidEvent ev)
  else
    .ok [sendMessage b.broadcastOptions.nsp
      (b.broadcastOptions.parser (emitClusterMessage b ev args).toJ)]

/-- The `ClusterMessage` built by `socketsJoin`: criteria in `data.opts`
(including `flags`), target rooms in `data.rooms`. -/
def socketsJoinMessage (b : BroadcastOperator) (rooms : RoomArg) : ClusterMessage :=
  { uid := UID
    type := .SOCKETS_JOIN
    data := .obj
      [("opts", .obj [("rooms", .arr (b.rooms.map .str)),
                      ("except", .arr (b.exceptRooms.map .str)),
                      ("flags", b.flags.toJ)]),
       ("rooms", .arr (rooms.toList.map .str))]
    nsp := b.broadcastOptions.nsp }

/-- `BroadcastOperator#socketsJoin`. -/
def BroadcastOperator.socketsJoin (b : BroadcastOperator) (rooms : RoomArg) :
    List SbMessage :=
  [sendMessage b.broadcastOptions.nsp
    (b.broadcastOptions.parser (socketsJoinMessage b rooms).toJ)]

/-- The `ClusterMessage` built by `socketsLeave` (symmetric). -/
def socketsLeaveMessage (b : BroadcastOperator) (rooms : RoomArg) : ClusterMessage :=
  { uid := UID
    type := .SOCKETS_LEAVE
    data := .obj
      [("opts", .obj [("rooms", .arr (b.rooms.map .str)),
                      ("except", .arr (b.exceptRooms.map .str)),
                      ("flags", b.flags.toJ)]),
       ("rooms", .arr (rooms.toList.map .str))]
    nsp := b.broadcastOptions.nsp }

/-- `BroadcastOperator#socketsLeave`. -/
def BroadcastOperator.socketsLeave (b : BroadcastOperator) (rooms : RoomArg) :
    List SbMessage :=
  [sendMessage b.broadcastOptions.nsp
    (b.broadcastOptions.parser (socketsLeaveMessage b rooms).toJ)]

/-- The `ClusterMessage` built by `disconnectSockets`. -/
def disconnectSocketsMessage (b : BroadcastOperator) (close : Bool) : ClusterMessage :=
  { uid := UID
    type := .DISCONNECT_SOCKETS
    data := .obj
      [("opts", .obj [("rooms", .arr (b.rooms.map .str)),
                      ("except", .arr (b.exceptRooms.map .str)),
                      ("flags", b.flags.toJ)]),
       ("close", .bool close)]
    nsp := b.broadcastOptions.nsp }

/-- `BroadcastOperator#disconnectSockets`. -/
def BroadcastOperator.disconnectSockets (b : BroadcastOperator) (close : Bool) :
    List SbMessage :=
  [sendMessage b.broadcastOptions.nsp
    (b.broadcastOptions.parser (disconnectSocketsMessage b close).toJ)]

/-- The `ClusterMessage` built by `Emitter#serverSideEmit`:
`data.packet` is the full argument list. -/
def serverSideEmitMessage (nsp : String) (args : List JValue) : ClusterMessage :=
  { uid := UID
    type := .SERVER_SIDE_EMIT
    data := .obj [("packet", .arr args)]
    nsp := nsp }

/-- `Emitter#serverSideEmit`: throws when the final argument is a
callback; otherwise one encoded cluster message whose
`applicationProperties` carry both the namespace and the origin tag. -/
def Emitter.serverSideEmit (e : Emitter) (args : List JValue) :
    Except EmitError (List SbMessage) :=
  if lastIsFn args then
    .error .unsupportedFeature
  else
    .ok [{ body := e.parser (serverSideEmitMessage e.nsp args).toJ
           contentType := "application/octet-stream"
           subject := none
           applicationProperties := [("nsp", e.nsp), ("uid", UID)] }]

end PropertyRouted

namespace CopyOnWrite

/-!
### Heap model of the refinement calls

In JavaScript the two `Set`s inside a `BroadcastOperator` are heap
objects passed by reference: `to` allocates a fresh rooms set
(`new Set(this.rooms)` plus the delta) while handing the *same*
`exceptRooms` object to the child, and `except` does the converse.  To
state that the refinement calls never mutate the receiver, the heap is
made explicit: a store of set cells, with operators holding references
into it.  A refinement only ever calls `add` on a freshly allocated
copy, so every pre-existing cell is left untouched.
-/

/-- The heap of `Set<string>` objects. -/
structure Store where
  cells : List (List String)

/-- Dereference a set cell. -/
def Store.get (σ : Store) (i : Nat) : List String :=
  σ.cells.getD i []

/-- Allocate a fresh cell (returns the new store and the reference). -/
def Store.alloc (σ : Store) (v : List String) : Store × Nat :=
  (⟨σ.cells ++ [v]⟩, σ.cells.length)

/-- A `BroadcastOperator` whose sets live in the store. -/
structure HOperator where
  broadcastOptions : BroadcastOptions
  roomsRef : Nat
  exceptRef : Nat
  flags : BroadcastFlags

/-- The references of an operator point at allocated cells. -/
def HOperator.validIn (b : HOperator) (σ : Store) : Prop :=
  b.roomsRef < σ.cells.length ∧ b.exceptRef < σ.cells.length

/-- The value-level operator an `HOperator` denotes. -/
def deref (σ : Store) (b : HOperator) : BroadcastOperator :=
  { broadcastOptions := b.broadcastOptions
    rooms := σ.get b.roomsRef
    exceptRooms := σ.get b.exceptRef
    flags := b.flags }

/-- One refinement call of the fluent interface. -/
inductive Refinement where
  | toRooms : RoomArg → Refinement
  | inRooms : RoomArg → Refinement
  | exceptRooms : RoomArg → Refinement
  | compress : Bool → Refinement
  | volatile : Refinement

/-- The heap semantics of a refinement call on `b`:
`to`/`in` allocate a copy of the rooms set extended with the argument and
return an operator that shares the parent's except cell; `except` is the
converse; `compress`/`volatile` copy the flags record (`Object.assign`
on a fresh object) and leave the store alone.  No existing cell is ever
written. -/
def applyRefinement (σ : Store) (b : HOperator) : Refinement → Store × HOperator
  | .toRooms r =>
      let p := σ.alloc (setAddAll (σ.get b.roomsRef) r.toList)
      (p.1, { b with roomsRef := p.2 })
  | .inRooms r =>
      let p := σ.alloc (setAddAll (σ.get b.roomsRef) r.toList)
      (p.1, { b with roomsRef := p.2 })
  | .exceptRooms r =>
      let p := σ.alloc (setAddAll (σ.get b.exceptRef) r.toList)
      (p.1, { b with exceptRef := p.2 })
  | .compress c => (σ, { b with flags := { b.flags with compress := some c } })
  | .volatile => (σ, { b with flags := { b.flags with volatile := some true } })

theorem Store.get_alloc_lt (σ : Store) (v : List String) (i : Nat)
    (h : i < σ.cells.length) : (σ.alloc v).1.get i = σ.get i := by
  simp only [Store.alloc, Store.get]
  rw [List.getD, List.getD, List.get?_eq_getElem?, List.get?_eq_getElem?,
    List.getElem?_append_left h]

theorem applyRefinement_frame (σ : Store) (b : HOperator) (ρ : Refinement)
    (i : Nat) (h : i < σ.cells.length) :
    (applyRefinement σ b ρ).1.get i = σ.get i := by
  cases ρ <;> simp only [applyRefinement] <;>
    first
      | rfl
      | exact Store.get_alloc_lt _ _ _ h

end CopyOnWrite

/-!
## Claims
-/

/-- C1: For every reserved connection-lifecycle event name (the six names
of `RESERVED_EVENTS`), `emit` fails synchronously with the invalid-event
error and dispatches zero messages, in both dialects; for every
non-reserved name it encodes and dispatches exactly one broadcast
message (the subject-routed `[UID, packet, opts]` record on the broadcast
channel, resp. a `BROADCAST`-typed cluster message). -/
theorem claim_C1_reserved_events (b : BroadcastOperator) (ev : String) (args : List JValue) :
    RESERVED_EVENTS =
      ["connect", "connect_error", "disconnect", "disconnecting",
       "newListener", "removeListener"] ∧
    (ev ∈ RESERVED_EVENTS →
      SubjectRouted.BroadcastOperator.emit b ev args = .error (.invalidEvent ev) ∧
      PropertyRouted.BroadcastOperator.emit b ev args = .error (.invalidEvent ev)) ∧
    (ev ∉ RESERVED_EVENTS →
      (∃ m, SubjectRouted.BroadcastOperator.emit b ev args = .ok [m] ∧
        m.body = b.broadcastOptions.parser (SubjectRouted.emitRecord b ev args) ∧
        m.subject = some (SubjectRouted.emitChannel b)) ∧
      (∃ m, PropertyRouted.BroadcastOperator.emit b ev args = .ok [m] ∧
        m.body = b.broadcastOptions.parser (PropertyRouted.emitClusterMessage b ev args).toJ ∧
        (PropertyRouted.emitClusterMessage b ev args).type = .BROADCAST)) := by
  refine ⟨rfl, fun h => ?_, fun h => ?_⟩
  · constructor <;>
      simp [SubjectRouted.BroadcastOperator.emit, PropertyRouted.BroadcastOperator.emit, h]
  · constructor
    · refine ⟨SubjectRouted.sendMessage (SubjectRouted.emitChannel b)
        (b.broadcastOptions.parser (SubjectRouted.emitRecord b ev args)), ?_, rfl, rfl⟩
      simp [SubjectRouted.BroadcastOperator.emit, h]
    · refine ⟨PropertyRouted.sendMessage b.broadcastOptions.nsp
        (b.broadcastOptions.parser (PropertyRouted.emitClusterMessage b ev args).toJ),
        ?_, rfl, rfl⟩
      simp [PropertyRouted.BroadcastOperator.emit, h]

/-- Witness for C1 at concrete inputs: `emit("connect")` fails with the
invalid-event error, `emit("hello")` dispatches exactly one message. -/
theorem claim_C1_reserved_events_witness :
    (SubjectRouted.BroadcastOperator.emit (Emitter.make none none "/").toOperator
        "connect" [] = .error (.invalidEvent "connect") ∧
      PropertyRouted.BroadcastOperator.emit (Emitter.make none none "/").toOperator
        "connect" [] = .error (.invalidEvent "connect")) ∧
    (∃ m, SubjectRouted.BroadcastOperator.emit (Emitter.make none none "/").toOperator
        "hello" [] = .ok [m] ∧
      m.body = (Emitter.make none none "/").toOperator.broadcastOptions.parser
        (SubjectRouted.emitRecord (Emitter.make none none "/").toOperator "hello" []) ∧
      m.subject = some (SubjectRouted.emitChannel (Emitter.make none none "/").toOperator)) :=
  ⟨(claim_C1_reserved_events (Emitter.make none none "/").toOperator "connect" []).2.1
      (by decide),
   ((claim_C1_reserved_events (Emitter.make none none "/").toOperator "hello" []).2.2
      (by decide)).1⟩

/-- C2: Every refinement call (`to`, `in`, `except`, `compress`,
`volatile`) is copy-on-write: in the explicit-heap model it writes no
existing set cell (it only allocates), the receiver denotes the same
value-level operator before and after the call, and therefore a terminal
call on the original builder produces the same messages it would have
produced before the refinement. -/
theorem claim_C2_copy_on_write (σ : CopyOnWrite.Store) (b : CopyOnWrite.HOperator)
    (ρ : CopyOnWrite.Refinement) (h : b.validIn σ) :
    (∀ i, i < σ.cells.length →
      (CopyOnWrite.applyRefinement σ b ρ).1.get i = σ.get i) ∧
    CopyOnWrite.deref (CopyOnWrite.applyRefinement σ b ρ).1 b = CopyOnWrite.deref σ b ∧
    (∀ ev args,
      SubjectRouted.BroadcastOperator.emit
          (CopyOnWrite.deref (CopyOnWrite.applyRefinement σ b ρ).1 b) ev args =
        SubjectRouted.BroadcastOperator.emit (CopyOnWrite.deref σ b) ev args) ∧
    (∀ rooms,
      SubjectRouted.BroadcastOperator.socketsJoin
          (CopyOnWrite.deref (CopyOnWrite.applyRefinement σ b ρ).1 b) rooms =
        SubjectRouted.BroadcastOperator.socketsJoin (CopyOnWrite.deref σ b) rooms) ∧
    (∀ ev args,
      PropertyRouted.BroadcastOperator.emit
          (CopyOnWrite.deref (CopyOnWrite.applyRefinement σ b ρ).1 b) ev args =
        PropertyRouted.BroadcastOperator.emit (CopyOnWrite.deref σ b) ev args) := by
  have hderef :
      CopyOnWrite.deref (CopyOnWrite.applyRefinement σ b ρ).1 b = CopyOnWrite.deref σ b := by
    simp only [CopyOnWrite.deref]
    rw [CopyOnWrite.applyRefinement_frame σ b ρ _ h.1,
      CopyOnWrite.applyRefinement_frame σ b ρ _ h.2]
  exact ⟨fun i hi => CopyOnWrite.applyRefinement_frame σ b ρ i hi, hderef,
    fun ev args => by rw [hderef], fun rooms => by rw [hderef], fun ev args => by rw [hderef]⟩

/-- Witness for C2: a two-cell store, an operator referencing both cells,
and a `to("a")` refinement leave the original operator's denotation
unchanged. -/
theorem claim_C2_copy_on_write_witness :
    CopyOnWrite.deref
        (CopyOnWrite.applyRefinement ⟨[[], []]⟩
          ⟨(Emitter.make none none "/").broadcastOptions, 0, 1, {}⟩
          (.toRooms (.one "a"))).1
        ⟨(Emitter.make none none "/").broadcastOptions, 0, 1, {}⟩ =
      CopyOnWrite.deref ⟨[[], []]⟩
        ⟨(Emitter.make none none "/").broadcastOptions, 0, 1, {}⟩ :=
  (claim_C2_copy_on_write ⟨[[], []]⟩
    ⟨(Emitter.make none none "/").broadcastOptions, 0, 1, {}⟩
    (.toRooms (.one "a")) ⟨by decide, by decide⟩).2.1

/-- C3: Chained `to`/`in` calls accumulate rooms as a deduplicated,
order- and grouping-independent set union: `in` is definitionally `to`,
`to(r₁).to(r₂)` equals `to(r₁ ++ r₂)`, membership in the accumulated
rooms set is the union of memberships, swapping the two calls yields the
same set, and concretely `to(["a","b"]).to(["b","c"])` followed by `emit`
produces a message whose rooms field is `["a","b","c"]`. -/
theorem claim_C3_rooms_union (b : BroadcastOperator) (r₁ r₂ : RoomArg) (x : String) :
    (BroadcastOperator.in' b r₁ = b.to r₁) ∧
    ((b.to r₁).to r₂ = b.to (.many (r₁.toList ++ r₂.toList))) ∧
    (x ∈ ((b.to r₁).to r₂).rooms ↔ x ∈ b.rooms ∨ x ∈ r₁.toList ∨ x ∈ r₂.toList) ∧
    (x ∈ ((b.to r₁).to r₂).rooms ↔ x ∈ ((b.to r₂).to r₁).rooms) ∧
    ((((Emitter.make none none "/").toOperator.to (.many ["a", "b"])).to
        (.many ["b", "c"])).rooms = ["a", "b", "c"]) ∧
    (((PropertyRouted.emitClusterMessage
          (((Emitter.make none none "/").toOperator.to (.many ["a", "b"])).to
            (.many ["b", "c"])) "event" []).data.lookup "opts").bind
        (fun o => o.lookup "rooms") =
      some (.arr [.str "a", .str "b", .str "c"])) := by
  have hmem : ∀ (s : List String) (u v : RoomArg) (y : String),
      y ∈ ((BroadcastOperator.to { b with rooms := s } u).to v).rooms ↔
        y ∈ s ∨ y ∈ u.toList ∨ y ∈ v.toList := by
    intro s u v y
    simp only [BroadcastOperator.to, mem_setAddAll, or_assoc]
  constructor
  · rfl
  constructor
  · simp only [BroadcastOperator.to, RoomArg.toList, setAddAll_append]
  constructor
  · simpa using hmem b.rooms r₁ r₂ x
  constructor
  · rw [show b = { b with rooms := b.rooms } from rfl, hmem, hmem]
    tauto
  constructor
  · decide
  · rfl

/-- C4: The rooms set and the except set accumulate independently:
`except(r)` after `to(r)` leaves the rooms set untouched (so `r` stays
included), `r` also lands in the except set, and the terminal records of
both dialects transmit both sets verbatim side by side. -/
theorem claim_C4_rooms_except_independent (b : BroadcastOperator) (r : RoomArg)
    (ev : String) (args : List JValue) (x : String) (hx : x ∈ r.toList) :
    (((b.to r).except r).rooms = (b.to r).rooms) ∧
    (x ∈ ((b.to r).except r).rooms) ∧
    (x ∈ ((b.to r).except r).exceptRooms) ∧
    ((SubjectRouted.emitRecord ((b.to r).except r) ev args).item 2 =
      some (.obj
        [("rooms", .arr (((b.to r).except r).rooms.map .str)),
         ("flags", ((b.to r).except r).flags.toJ),
         ("except", .arr (((b.to r).except r).exceptRooms.map .str))])) ∧
    (((PropertyRouted.emitClusterMessage ((b.to r).except r) ev args).data.lookup
        "opts").bind (fun o => o.lookup "rooms") =
      some (.arr (((b.to r).except r).rooms.map .str))) ∧
    (((PropertyRouted.emitClusterMessage ((b.to r).except r) ev args).data.lookup
        "opts").bind (fun o => o.lookup "except") =
      some (.arr (((b.to r).except r).exceptRooms.map .str))) := by
  refine ⟨rfl, ?_, ?_, ?_, rfl, rfl⟩
  · simp only [BroadcastOperator.except, BroadcastOperator.to, mem_setAddAll]
    exact Or.inr hx
  · simp only [BroadcastOperator.except, BroadcastOperator.to, mem_setAddAll]
    exact Or.inr hx
  · rfl

/-- Witness for C4: including and then excluding `"r"` keeps `"r"` in the
rooms set of the resulting operator. -/
theorem claim_C4_rooms_except_independent_witness :
    "r" ∈ (((Emitter.make none none "/").toOperator.to (.one "r")).except
      (.one "r")).rooms :=
  (claim_C4_rooms_except_independent (Emitter.make none none "/").toOperator
    (.one "r") "event" [] "r" (by decide)).2.1

/-- C5 counterexample: after `.volatile.in("r2")`, the subject-routed
`socketsJoin("r1")` request carries **no** `flags` entry in its criteria,
even though the builder's flags are non-empty (`volatile: true`) — so the
criteria do not equal the builder's rooms, except, *and flags* as the
claim states. -/
theorem claim_C5_flags_missing_counterexample :
    ((((SubjectRouted.socketsJoinRequest
          (((Emitter.make none none "/").toOperator.volatile).in' (.one "r2"))
          (.one "r1")).lookup "opts").bind (fun o => o.lookup "flags")) = none) ∧
    ((((Emitter.make none none "/").toOperator.volatile).in' (.one "r2")).flags =
      { volatile := some true, compress := none }) := by
  exact ⟨rfl, rfl⟩

/-- C5 (amended): `socketsJoin` (and `socketsLeave` symmetrically) builds
a request whose target rooms field is exactly the listified argument and
whose criteria are the builder's current rooms and except sets — plus the
flags in the property-routed dialect only, the subject-routed request
omitting the flags — with target and criteria never conflated
(`socketsJoin("r1")` after `.in("r2")` targets `["r1"]` under criteria
rooms `["r2"]`). -/
theorem claim_C5_join_leave_target_criteria (b : BroadcastOperator) (rooms : RoomArg) :
    ((SubjectRouted.socketsJoinRequest b rooms).lookup "rooms" =
      some (.arr (rooms.toList.map .str))) ∧
    ((SubjectRouted.socketsJoinRequest b rooms).lookup "opts" =
      some (.obj [("rooms", .arr (b.rooms.map .str)),
                  ("except", .arr (b.exceptRooms.map .str))])) ∧
    ((SubjectRouted.socketsLeaveRequest b rooms).lookup "rooms" =
      some (.arr (rooms.toList.map .str))) ∧
    ((SubjectRouted.socketsLeaveRequest b rooms).lookup "opts" =
      some (.obj [("rooms", .arr (b.rooms.map .str)),
                  ("except", .arr (b.exceptRooms.map .str))])) ∧
    ((PropertyRouted.socketsJoinMessage b rooms).data.lookup "rooms" =
      some (.arr (rooms.toList.map .str))) ∧
    ((PropertyRouted.socketsJoinMessage b rooms).data.lookup "opts" =
      some (.obj [("rooms", .arr (b.rooms.map .str)),
                  ("except", .arr (b.exceptRooms.map .str)),
                  ("flags", b.flags.toJ)])) ∧
    ((PropertyRouted.socketsLeaveMessage b rooms).data.lookup "rooms" =
      some (.arr (rooms.toList.map .str))) ∧
    ((PropertyRouted.socketsLeaveMessage b rooms).data.lookup "opts" =
      some (.obj [("rooms", .arr (b.rooms.map .str)),
                  ("except", .arr (b.exceptRooms.map .str)),
                  ("flags", b.flags.toJ)])) ∧
    ((PropertyRouted.socketsJoinMessage
        ((Emitter.make none none "/").toOperator.in' (.one "r2"))
        (.one "r1")).data.lookup "rooms" = some (.arr [.str "r1"])) ∧
    ((((PropertyRouted.socketsJoinMessage
          ((Emitter.make none none "/").toOperator.in' (.one "r2"))
          (.one "r1")).data.lookup "opts").bind (fun o => o.lookup "rooms")) =
      some (.arr [.str "r2"])) ∧
    ((((SubjectRouted.socketsJoinRequest
          ((Emitter.make none none "/").toOperator.in' (.one "r2"))
          (.one "r1")).lookup "opts").bind (fun o => o.lookup "rooms")) =
      some (.arr [.str "r2"])) := by
  exact ⟨rfl, rfl, rfl, rfl, rfl, rfl, rfl, rfl, rfl, rfl, rfl⟩

/-- C6: the `of(name)` normalization part of the claim holds (prepend `/`
exactly when the first character is not `/`, hence idempotent on
already-prefixed names), but the direct-construction part fails: the
constructor stores its `nsp` argument verbatim, so an emitter constructed
with `nsp = "custom"` is bound to `"custom"`, which does not begin with
`/` — contradicting both the claim and the repository's own README
("A leading `/` is automatically added if missing"). -/
theorem claim_C6_constructor_nsp_verbatim :
    ((Emitter.make none none "custom").nsp = "custom") ∧
    ((Emitter.make none none "custom").broadcastOptions.nsp = "custom") ∧
    ("custom".data.head? ≠ some '/') ∧
    ((Emitter.make none none "custom").broadcastOptions.broadcastChannel =
      "socket.io#custom#") ∧
    (((Emitter.make none none "/").of "custom").nsp = "/custom") ∧
    (((Emitter.make none none "/").of "/custom").nsp = "/custom") ∧
    ((Emitter.make none none "/").nsp = "/") := by
  refine ⟨rfl, rfl, by decide, by decide, by decide, by decide, rfl⟩

/-- C7: `serverSideEmit` fails synchronously with the
unsupported-feature error exactly when the final positional argument is a
function value, dispatching nothing in that case; otherwise it dispatches
exactly one server-side-emit message carrying the namespace and the full
argument list (and an empty argument list does not throw), in both
dialects. -/
theorem claim_C7_server_side_emit (e : Emitter) (args : List JValue) :
    (lastIsFn args = true →
      SubjectRouted.Emitter.serverSideEmit e args = .error .unsupportedFeature ∧
      PropertyRouted.Emitter.serverSideEmit e args = .error .unsupportedFeature) ∧
    (lastIsFn args = false →
      (∃ m, SubjectRouted.Emitter.serverSideEmit e args = .ok [m] ∧
        m.subject = some e.broadcastOptions.requestChannel ∧
        m.body = jsonStringify (SubjectRouted.serverSideEmitRequest args)) ∧
      (∃ m, PropertyRouted.Emitter.serverSideEmit e args = .ok [m] ∧
        m.applicationProperties = [("nsp", e.nsp), ("uid", UID)] ∧
        m.body = e.parser (PropertyRouted.serverSideEmitMessage e.nsp args).toJ)) ∧
    ((SubjectRouted.serverSideEmitRequest args).lookup "data" = some (.arr args)) ∧
    ((PropertyRouted.serverSideEmitMessage e.nsp args).data.lookup "packet" =
      some (.arr args)) ∧
    ((PropertyRouted.serverSideEmitMessage e.nsp args).nsp = e.nsp) ∧
    (lastIsFn [] = false) := by
  refine ⟨fun h => ?_, fun h => ?_, rfl, rfl, rfl, rfl⟩
  · constructor <;>
      simp [SubjectRouted.Emitter.serverSideEmit, PropertyRouted.Emitter.serverSideEmit, h]
  · constructor
    · refine ⟨SubjectRouted.sendMessage e.broadcastOptions.requestChannel
        (jsonStringify (SubjectRouted.serverSideEmitRequest args)), ?_, rfl, rfl⟩
      simp [SubjectRouted.Emitter.serverSideEmit, h]
    · refine ⟨{ body := e.parser (PropertyRouted.serverSideEmitMessage e.nsp args).toJ
                contentType := "application/octet-stream"
                subject := none
                applicationProperties := [("nsp", e.nsp), ("uid", UID)] }, ?_, rfl, rfl⟩
      simp [PropertyRouted.Emitter.serverSideEmit, h]

/-- Witness for C7 at concrete inputs: a trailing function argument
fails in both dialects; `serverSideEmit("hello", "world")` dispatches one
message. -/
theorem claim_C7_server_side_emit_witness :
    (SubjectRouted.Emitter.serverSideEmit (Emitter.make none none "/")
        [.str "hello", .fn] = .error .unsupportedFeature ∧
      PropertyRouted.Emitter.serverSideEmit (Emitter.make none none "/")
        [.str "hello", .fn] = .error .unsupportedFeature) ∧
    (∃ m, SubjectRouted.Emitter.serverSideEmit (Emitter.make none none "/")
        [.str "hello", .str "world"] = .ok [m] ∧
      m.subject = some (Emitter.make none none "/").broadcastOptions.requestChannel ∧
      m.body = jsonStringify
        (SubjectRouted.serverSideEmitRequest [.str "hello", .str "world"])) :=
  ⟨(claim_C7_server_side_emit (Emitter.make none none "/") [.str "hello", .fn]).1
      (by decide),
   ((claim_C7_server_side_emit (Emitter.make none none "/")
      [.str "hello", .str "world"]).2.1 (by decide)).1⟩

/-- The same operator with the codec swapped — models constructing the
builder root with a different `parser` option and reaching this operator
state through the same chain of refinements. -/
def BroadcastOperator.withParser (b : BroadcastOperator) (p : JValue → String) :
    BroadcastOperator :=
  { b with broadcastOptions := { b.broadcastOptions with parser := p } }

/-- The same emitter with the codec swapped. -/
def Emitter.withParser (e : Emitter) (p : JValue → String) : Emitter :=
  { e with parser := p, broadcastOptions := { e.broadcastOptions with parser := p } }

/-- A projection of a dispatched message onto everything except its
payload: content type, subject and application properties. -/
def SbMessage.meta (m : SbMessage) : String × Option String × List (String × String) :=
  (m.contentType, m.subject, m.applicationProperties)

/-- C8 counterexample: with the constant custom codec `_ ↦ "CODEC"`
configured at builder-root construction, the subject-routed
`socketsJoin("r")` still sends a `JSON.stringify` payload, not the
codec's output — so not every terminal payload is produced by the
configured codec. -/
theorem claim_C8_json_bypasses_codec_counterexample :
    ((Emitter.make none (some (fun _ => "CODEC"))
        "/").toOperator.broadcastOptions.parser JValue.undef = "CODEC") ∧
    ((SubjectRouted.BroadcastOperator.socketsJoin
        (Emitter.make none (some (fun _ => "CODEC")) "/").toOperator
        (.one "r")).map SbMessage.body ≠ ["CODEC"]) := by
  exact ⟨rfl, by decide⟩

/-- C8 (amended): in the property-routed dialect every terminal payload
is produced by the configured codec and swapping the codec changes
nothing but the payload; in the subject-routed dialect only `emit`'s
broadcast payload goes through the codec, while the four request-type
terminals (`socketsJoin`, `socketsLeave`, `disconnectSockets`,
`serverSideEmit`) always serialize their record with `JSON.stringify`,
producing messages entirely independent of the configured codec. -/
theorem claim_C8_codec_usage (b : BroadcastOperator) (p : JValue → String)
    (e : Emitter) (ev : String) (args : List JValue) (rooms : RoomArg) (close : Bool) :
    (ev ∉ RESERVED_EVENTS →
      (PropertyRouted.BroadcastOperator.emit b ev args).map (List.map SbMessage.body) =
        .ok [b.broadcastOptions.parser (PropertyRouted.emitClusterMessage b ev args).toJ]) ∧
    ((PropertyRouted.BroadcastOperator.socketsJoin b rooms).map SbMessage.body =
      [b.broadcastOptions.parser (PropertyRouted.socketsJoinMessage b rooms).toJ]) ∧
    ((PropertyRouted.BroadcastOperator.socketsLeave b rooms).map SbMessage.body =
      [b.broadcastOptions.parser (PropertyRouted.socketsLeaveMessage b rooms).toJ]) ∧
    ((PropertyRouted.BroadcastOperator.disconnectSockets b close).map SbMessage.body =
      [b.broadcastOptions.parser (PropertyRouted.disconnectSocketsMessage b close).toJ]) ∧
    (lastIsFn args = false →
      (PropertyRouted.Emitter.serverSideEmit e args).map (List.map SbMessage.body) =
        .ok [e.parser (PropertyRouted.serverSideEmitMessage e.nsp args).toJ]) ∧
    ((PropertyRouted.BroadcastOperator.emit (b.withParser p) ev args).map
        (List.map SbMessage.meta) =
      (PropertyRouted.BroadcastOperator.emit b ev args).map (List.map SbMessage.meta)) ∧
    (ev ∉ RESERVED_EVENTS →
      (SubjectRouted.BroadcastOperator.emit b ev args).map (List.map SbMessage.body) =
        .ok [b.broadcastOptions.parser (SubjectRouted.emitRecord b ev args)]) ∧
    (SubjectRouted.BroadcastOperator.socketsJoin (b.withParser p) rooms =
      SubjectRouted.BroadcastOperator.socketsJoin b rooms) ∧
    (SubjectRouted.BroadcastOperator.socketsLeave (b.withParser p) rooms =
      SubjectRouted.BroadcastOperator.socketsLeave b rooms) ∧
    (SubjectRouted.BroadcastOperator.disconnectSockets (b.withParser p) close =
      SubjectRouted.BroadcastOperator.disconnectSockets b close) ∧
    (SubjectRouted.Emitter.serverSideEmit (e.withParser p) args =
      SubjectRouted.Emitter.serverSideEmit e args) := by
  refine ⟨fun h => ?_, rfl, rfl, rfl, fun h => ?_, ?_, fun h => ?_, rfl, rfl, rfl, rfl⟩
  · simp [PropertyRouted.BroadcastOperator.emit, h, PropertyRouted.sendMessage,
      Except.map]
  · simp [PropertyRouted.Emitter.serverSideEmit, h, Except.map]
  · simp only [PropertyRouted.BroadcastOperator.emit]
    split <;> rfl
  · simp [SubjectRouted.BroadcastOperator.emit, h, SubjectRouted.sendMessage, Except.map]

/-- Witness for C8 at concrete inputs: the property-routed `emit("hello")`
payload is the configured codec's output on the broadcast record. -/
theorem claim_C8_codec_usage_witness :
    (PropertyRouted.BroadcastOperator.emit (Emitter.make none none "/").toOperator
        "hello" []).map (List.map SbMessage.body) =
      .ok [(Emitter.make none none "/").toOperator.broadcastOptions.parser
        (PropertyRouted.emitClusterMessage (Emitter.make none none "/").toOperator
          "hello" []).toJ] :=
  (claim_C8_codec_usage (Emitter.make none none "/").toOperator jsonStringify
    (Emitter.make none none "/") "hello" [] (.one "r") false).1 (by decide)

/-- C9 counterexample: the subject-routed `socketsJoin` request carries no
origin tag at all — its record has no `uid` entry and the dispatched
message has empty application properties — so not every message variant
carries the `"emitter"` origin tag. -/
theorem claim_C9_no_origin_tag_counterexample :
    ((SubjectRouted.socketsJoinRequest (Emitter.make none none "/").toOperator
        (.one "r")).lookup "uid" = none) ∧
    ((SubjectRouted.BroadcastOperator.socketsJoin
        (Emitter.make none none "/").toOperator
        (.one "r")).map SbMessage.applicationProperties = [[]]) := by
  exact ⟨rfl, rfl⟩

/-- C9 (amended): every message variant carries the namespace, and the
`"emitter"` origin tag is carried by every variant of the property-routed
dialect and by the subject-routed `BROADCAST` and `SERVER_SIDE_EMIT`
records — but each of the subject-routed `SOCKETS_JOIN`, `SOCKETS_LEAVE`
and `DISCONNECT_SOCKETS` requests carries only the namespace (inside the
request channel): its record has no `uid` entry and its dispatched
message has empty application properties. -/
theorem claim_C9_origin_tag (b : BroadcastOperator) (ev : String) (args : List JValue)
    (rooms : RoomArg) (close : Bool) (e : Emitter) (key nsp : String)
    (p : Option (JValue → String)) :
    ((PropertyRouted.emitClusterMessage b ev args).uid = UID ∧
      (PropertyRouted.emitClusterMessage b ev args).nsp = b.broadcastOptions.nsp) ∧
    ((PropertyRouted.socketsJoinMessage b rooms).uid = UID ∧
      (PropertyRouted.socketsJoinMessage b rooms).nsp = b.broadcastOptions.nsp) ∧
    ((PropertyRouted.socketsLeaveMessage b rooms).uid = UID ∧
      (PropertyRouted.socketsLeaveMessage b rooms).nsp = b.broadcastOptions.nsp) ∧
    ((PropertyRouted.disconnectSocketsMessage b close).uid = UID ∧
      (PropertyRouted.disconnectSocketsMessage b close).nsp = b.broadcastOptions.nsp) ∧
    ((PropertyRouted.serverSideEmitMessage e.nsp args).uid = UID ∧
      (PropertyRouted.serverSideEmitMessage e.nsp args).nsp = e.nsp) ∧
    ((SubjectRouted.emitRecord b ev args).item 0 = some (.str UID)) ∧
    ((SubjectRouted.serverSideEmitRequest args).lookup "uid" = some (.str UID)) ∧
    (UID = "emitter") ∧
    ((Emitter.make (some key) p nsp).broadcastOptions.requestChannel =
      key ++ "-request#" ++ nsp ++ "#") ∧
    ((SubjectRouted.BroadcastOperator.socketsJoin b rooms).map SbMessage.subject =
      [some b.broadcastOptions.requestChannel]) ∧
    ((SubjectRouted.BroadcastOperator.socketsLeave b rooms).map SbMessage.subject =
      [some b.broadcastOptions.requestChannel]) ∧
    ((SubjectRouted.BroadcastOperator.disconnectSockets b close).map SbMessage.subject =
      [some b.broadcastOptions.requestChannel]) ∧
    ((SubjectRouted.socketsJoinRequest b rooms).lookup "uid" = none) ∧
    ((SubjectRouted.socketsLeaveRequest b rooms).lookup "uid" = none) ∧
    ((SubjectRouted.disconnectSocketsRequest b close).lookup "uid" = none) ∧
    ((SubjectRouted.BroadcastOperator.socketsJoin b rooms).map
      SbMessage.applicationProperties = [[]]) ∧
    ((SubjectRouted.BroadcastOperator.socketsLeave b rooms).map
      SbMessage.applicationProperties = [[]]) ∧
    ((SubjectRouted.BroadcastOperator.disconnectSockets b close).map
      SbMessage.applicationProperties = [[]]) := by
  exact ⟨⟨rfl, rfl⟩, ⟨rfl, rfl⟩, ⟨rfl, rfl⟩, ⟨rfl, rfl⟩, ⟨rfl, rfl⟩,
    rfl, rfl, rfl, rfl, rfl, rfl, rfl, rfl, rfl, rfl, rfl, rfl, rfl⟩

/-- C10: in the subject-routed dialect the broadcast subject is
`key + "#" + nsp + "#"` with `key` defaulting to `"socket.io"`; `emit`
appends the single room and a trailing `#` to it exactly when the criteria
rooms set has one element, and omits the room segment otherwise; the
request-type terminals use the subject `key + "-request#" + nsp + "#"`. -/
theorem claim_C10_subject_addressing (key nsp : String) (p : Option (JValue → String))
    (b : BroadcastOperator) (ev : String) (args : List JValue) (rooms : RoomArg)
    (close : Bool) :
    ((Emitter.make (some key) p nsp).broadcastOptions.broadcastChannel =
      key ++ "#" ++ nsp ++ "#") ∧
    ((Emitter.make (some key) p nsp).broadcastOptions.requestChannel =
      key ++ "-request#" ++ nsp ++ "#") ∧
    ((Emitter.make none p nsp).broadcastOptions.broadcastChannel =
      "socket.io" ++ "#" ++ nsp ++ "#") ∧
    ((Emitter.make none p nsp).broadcastOptions.requestChannel =
      "socket.io" ++ "-request#" ++ nsp ++ "#") ∧
    (b.rooms.length = 1 →
      SubjectRouted.emitChannel b =
        b.broadcastOptions.broadcastChannel ++ b.rooms.headD "" ++ "#") ∧
    (b.rooms.length ≠ 1 →
      SubjectRouted.emitChannel b = b.broadcastOptions.broadcastChannel) ∧
    (ev ∉ RESERVED_EVENTS →
      (SubjectRouted.BroadcastOperator.emit b ev args).map (List.map SbMessage.subject) =
        .ok [some (SubjectRouted.emitChannel b)]) ∧
    ((SubjectRouted.BroadcastOperator.socketsJoin b rooms).map SbMessage.subject =
      [some b.broadcastOptions.requestChannel]) ∧
    ((SubjectRouted.BroadcastOperator.socketsLeave b rooms).map SbMessage.subject =
      [some b.broadcastOptions.requestChannel]) ∧
    ((SubjectRouted.BroadcastOperator.disconnectSockets b close).map SbMessage.subject =
      [some b.broadcastOptions.requestChannel]) ∧
    (lastIsFn args = false →
      (SubjectRouted.Emitter.serverSideEmit (Emitter.make (some key) p nsp) args).map
          (List.map SbMessage.subject) =
        .ok [some (key ++ "-request#" ++ nsp ++ "#")]) := by
  refine ⟨rfl, rfl, rfl, rfl, fun h => ?_, fun h => ?_, fun h => ?_, rfl, rfl, rfl,
    fun h => ?_⟩
  · simp [SubjectRouted.emitChannel, h]
  · simp [SubjectRouted.emitChannel, h]
  · simp [SubjectRouted.BroadcastOperator.emit, h, SubjectRouted.sendMessage, Except.map]
  · simp [SubjectRouted.Emitter.serverSideEmit, h, SubjectRouted.sendMessage, Except.map,
      Emitter.make]

/-- Witness for C10 at concrete inputs: with one room targeted the subject
is `"socket.io#/#room1#"`; with none it is `"socket.io#/#"`. -/
theorem claim_C10_subject_addressing_witness :
    SubjectRouted.emitChannel
        ((Emitter.make none none "/").toOperator.to (.one "room1")) =
      ((Emitter.make none none "/").toOperator.to
        (.one "room1")).broadcastOptions.broadcastChannel ++ "room1" ++ "#" ∧
    SubjectRouted.emitChannel (Emitter.make none none "/").toOperator =
      (Emitter.make none none "/").toOperator.broadcastOptions.broadcastChannel :=
  ⟨(claim_C10_subject_addressing "socket.io" "/" none
      ((Emitter.make none none "/").toOperator.to (.one "room1")) "hello" []
      (.one "r") false).2.2.2.2.1 (by decide),
   (claim_C10_subject_addressing "socket.io" "/" none
      (Emitter.make none none "/").toOperator "hello" []
      (.one "r") false).2.2.2.2.2.1 (by decide)⟩
